import Mathlib

/-!
Verification of the voice-backend audio-processing pipeline (`src/app.py`)
against its natural-language specification.

The development shallowly embeds the `/api/process-audio` handler
(`process_audio`): external collaborators (blob storage, the Gemini client,
the log sink, the multipart form) are oracles collected in an `Env` record,
pure computations (schema lookup, fence stripping, JSON parsing and shape
validation, worksheet rendering) are translated from the source, and the
handler is a function from `Env` to an HTTP response paired with the trace
of external calls it attempted.
-/

set_option autoImplicit false

namespace VoiceBackend

/-- A parsed JSON value, the result shape of Python `json.loads`.
Numbers are modelled as integers (the JSON documents exercised by this
program carry integer amounts); object fields keep their textual order,
as Python dicts preserve insertion order. -/
inductive JsonValue where
  | null
  | bool (b : Bool)
  | num (n : Int)
  | str (s : String)
  | arr (elems : List JsonValue)
  | obj (fields : List (String × JsonValue))
deriving Inhabited

/-- JSON insignificant whitespace, skipped between tokens by `json.loads`. -/
def jskipWs (l : List Char) : List Char :=
  l.dropWhile (fun c => c = ' ' || c = '\n' || c = '\t' || c = '\r')

/-- Translate a JSON escape character following a backslash. -/
def jescape (c : Char) : Option Char :=
  match c with
  | '"' => some '"'
  | '\\' => some '\\'
  | '/' => some '/'
  | 'n' => some '\n'
  | 't' => some '\t'
  | 'r' => some '\r'
  | _ => none

/-- Parse the body of a JSON string literal (the opening quote already
consumed), returning the string and the remaining input.  `\u` escapes are
not modelled; none of the documents this program handles contain them. -/
def parseStringBody : List Char → Option (String × List Char)
  | [] => none
  | '\\' :: e :: rest =>
    match jescape e with
    | some c => (parseStringBody rest).map (fun p => (⟨c :: p.1.data⟩, p.2))
    | none => none
  | '"' :: rest => some ("", rest)
  | c :: rest => (parseStringBody rest).map (fun p => (⟨c :: p.1.data⟩, p.2))

/-- Accumulate decimal digits into a natural number. -/
def digitsToNat (ds : List Char) : Nat :=
  ds.foldl (fun a c => 10 * a + (c.toNat - 48)) 0

/-- Parse a nonempty run of decimal digits. -/
def parseNatNum (l : List Char) : Option (Nat × List Char) :=
  let ds := l.takeWhile Char.isDigit
  if ds = [] then none else some (digitsToNat ds, l.dropWhile Char.isDigit)

/-- Parse a JSON integer, with an optional leading minus sign.
Fractions and exponents are not modelled (see `JsonValue.num`). -/
def parseNumber (l : List Char) : Option (Int × List Char) :=
  match l with
  | '-' :: rest => (parseNatNum rest).map (fun p => (-(p.1 : Int), p.2))
  | _ => (parseNatNum l).map (fun p => ((p.1 : Int), p.2))

/-- Mode of the recursive-descent JSON parser: a single value, the elements
after `[`, the elements after a comma, the members after the opening brace,
or the members after a comma. -/
inductive JMode where
  | value
  | elems
  | elemsTail
  | members
  | membersTail

/-- Intermediate output of the JSON parser, one constructor per `JMode`
family. -/
inductive JOut where
  | val (v : JsonValue)
  | list (es : List JsonValue)
  | fields (fs : List (String × JsonValue))

/-- Recursive-descent parser for JSON, structural on a fuel argument so that
it evaluates by kernel reduction.  Mirrors the grammar accepted by Python
`json.loads` on the documents this program handles. -/
def jparse : Nat → JMode → List Char → Option (JOut × List Char)
  | 0, _, _ => none
  | Nat.succ fuel, JMode.value, l =>
    match jskipWs l with
    | 'n' :: 'u' :: 'l' :: 'l' :: rest => some (JOut.val JsonValue.null, rest)
    | 't' :: 'r' :: 'u' :: 'e' :: rest => some (JOut.val (JsonValue.bool true), rest)
    | 'f' :: 'a' :: 'l' :: 's' :: 'e' :: rest => some (JOut.val (JsonValue.bool false), rest)
    | '"' :: rest => (parseStringBody rest).map (fun p => (JOut.val (JsonValue.str p.1), p.2))
    | '[' :: rest =>
      (jparse fuel JMode.elems rest).bind (fun p =>
        match p.1 with
        | JOut.list es => some (JOut.val (JsonValue.arr es), p.2)
        | _ => none)
    | '\x7b' :: rest =>
      (jparse fuel JMode.members rest).bind (fun p =>
        match p.1 with
        | JOut.fields fs => some (JOut.val (JsonValue.obj fs), p.2)
        | _ => none)
    | l' => (parseNumber l').map (fun p => (JOut.val (JsonValue.num p.1), p.2))
  | Nat.succ fuel, JMode.elems, l =>
    match jskipWs l with
    | ']' :: rest => some (JOut.list [], rest)
    | l' =>
      (jparse fuel JMode.value l').bind (fun p =>
        match p.1 with
        | JOut.val v =>
          (jparse fuel JMode.elemsTail p.2).bind (fun q =>
            match q.1 with
            | JOut.list es => some (JOut.list (v :: es), q.2)
            | _ => none)
        | _ => none)
  | Nat.succ fuel, JMode.elemsTail, l =>
    match jskipWs l with
    | ']' :: rest => some (JOut.list [], rest)
    | ',' :: rest =>
      (jparse fuel JMode.value rest).bind (fun p =>
        match p.1 with
        | JOut.val v =>
          (jparse fuel JMode.elemsTail p.2).bind (fun q =>
            match q.1 with
            | JOut.list es => some (JOut.list (v :: es), q.2)
            | _ => none)
        | _ => none)
    | _ => none
  | Nat.succ fuel, JMode.members, l =>
    match jskipWs l with
    | '\x7d' :: rest => some (JOut.fields [], rest)
    | '"' :: rest =>
      (parseStringBody rest).bind (fun pk =>
        match jskipWs pk.2 with
        | ':' :: rest2 =>
          (jparse fuel JMode.value rest2).bind (fun p =>
            match p.1 with
            | JOut.val v =>
              (jparse fuel JMode.membersTail p.2).bind (fun q =>
                match q.1 with
                | JOut.fields fs => some (JOut.fields ((pk.1, v) :: fs), q.2)
                | _ => none)
            | _ => none)
        | _ => none)
    | _ => none
  | Nat.succ fuel, JMode.membersTail, l =>
    match jskipWs l with
    | '\x7d' :: rest => some (JOut.fields [], rest)
    | ',' :: rest =>
      (match jskipWs rest with
       | '"' :: rest1 =>
         (parseStringBody rest1).bind (fun pk =>
           match jskipWs pk.2 with
           | ':' :: rest2 =>
             (jparse fuel JMode.value rest2).bind (fun p =>
               match p.1 with
               | JOut.val v =>
                 (jparse fuel JMode.membersTail p.2).bind (fun q =>
                   match q.1 with
                   | JOut.fields fs => some (JOut.fields ((pk.1, v) :: fs), q.2)
                   | _ => none)
               | _ => none)
           | _ => none)
       | _ => none)
    | _ => none

/-- Model of Python `json.loads`: parse one JSON value and require that only
whitespace follows it; any leftover input or parse failure yields `none`
(in Python, a raised `JSONDecodeError`). -/
def json_loads (s : String) : Option JsonValue :=
  match jparse (2 * s.data.length + 2) JMode.value s.data with
  | some (JOut.val v, rest) => if jskipWs rest = [] then some v else none
  | _ => none

/-- Serialize a `JsonValue` with bounded recursion depth; mirrors Python
`json.dumps` with its default separators. -/
def jdumpFuel : Nat → JsonValue → String
  | 0, _ => ""
  | Nat.succ f, v =>
    match v with
    | JsonValue.null => "null"
    | JsonValue.bool true => "true"
    | JsonValue.bool false => "false"
    | JsonValue.num n => toString n
    | JsonValue.str s => "\"" ++ s ++ "\""
    | JsonValue.arr es =>
      "[" ++ String.intercalate ", " (es.map (jdumpFuel f)) ++ "]"
    | JsonValue.obj fs =>
      "\x7b" ++
        String.intercalate ", "
          (fs.map (fun kv => "\"" ++ kv.1 ++ "\": " ++ jdumpFuel f kv.2)) ++
        "\x7d"

mutual

/-- Structural size of a `JsonValue`; bounds the nesting depth, so it is a
sufficient fuel for `jdumpFuel`. -/
def jsize : JsonValue → Nat
  | JsonValue.null => 1
  | JsonValue.bool _ => 1
  | JsonValue.num _ => 1
  | JsonValue.str _ => 1
  | JsonValue.arr es => 1 + jsizeL es
  | JsonValue.obj fs => 1 + jsizeF fs

/-- Size of a list of JSON values. -/
def jsizeL : List JsonValue → Nat
  | [] => 0
  | v :: vs => 1 + jsize v + jsizeL vs

/-- Size of a list of JSON object fields. -/
def jsizeF : List (String × JsonValue) → Nat
  | [] => 0
  | kv :: kvs => 1 + jsize kv.2 + jsizeF kvs

end

/-- Model of Python `json.dumps`: `jsize` bounds the nesting depth of any
`JsonValue`, so the fuel never runs out. -/
def json_dumps (v : JsonValue) : String :=
  jdumpFuel (jsize v) v

/-- The characters removed by Python `str.strip()` with no argument
(ASCII whitespace; the rare further Unicode space characters do not occur
in this program's data). -/
def isPySpace (c : Char) : Bool :=
  c = ' ' || c = '\t' || c = '\n' || c = '\r' || c = '\x0b' || c = '\x0c'

/-- Model of Python `str.strip()`: drop leading and trailing whitespace. -/
def pyStrip (s : String) : String :=
  ⟨((s.data.dropWhile isPySpace).reverse.dropWhile isPySpace).reverse⟩

/-- Core of Python `str.replace(old, new)` for a nonempty `old`: scan left
to right, replace each non-overlapping occurrence of `old` by `new`, and
continue after the replaced segment without rescanning.  The fuel is
decremented once per examined position; since every step consumes at least
one character, `l.length` fuel is always sufficient. -/
def replaceAux (old new : List Char) : Nat → List Char → List Char
  | 0, l => l
  | Nat.succ fuel, l =>
    match l with
    | [] => []
    | c :: cs =>
      if old ≠ [] ∧ old.isPrefixOf (c :: cs) then
        new ++ replaceAux old new fuel (List.drop (old.length - 1) cs)
      else
        c :: replaceAux old new fuel cs

/-- Model of Python `str.replace(old, new)` (the source only calls it with
nonempty `old`). -/
def pyReplace (s old new : String) : String :=
  ⟨replaceAux old.data new.data s.data.length s.data⟩

/-- The normalization applied to the raw extraction response before JSON
parsing (src/app.py line 160):
`response.text.strip().replace("```json", "").replace("```", "")`. -/
def pyNormalize (raw : String) : String :=
  pyReplace (pyReplace (pyStrip raw) "```json" "") "```" ""

/-- One entry of the template table: the display name and the JSON-shaped
field-schema text (src/app.py `TEMPLATE_SCHEMAS` values). -/
structure SchemaInfo where
  name : String
  schema : String
deriving DecidableEq

/-- The `template3` entry (`"Default / Not Specified"`), which also serves
as the fallback of `TEMPLATE_SCHEMAS.get`.  `\x7b`/`\x7d` denote the brace
characters of the Python string literal. -/
def template3_info : SchemaInfo :=
  { name := "Default / Not Specified"
    schema := "\x7b\n            \"description\": \"A description of the entry\",\n            \"amount\": \"The amount as a number\"\n        \x7d" }

/-- The static template table (src/app.py lines 29-74).  The schema strings
are the Python triple-quoted literals verbatim, with `\x7b`/`\x7d` for
braces and `\x27` for apostrophes. -/
def TEMPLATE_SCHEMAS : List (String × SchemaInfo) :=
  [ ("template1",
     { name := "Import Receipts"
       schema := "\x7b\n            \"Payment Type\": \"e.g., Bank, Cheque, Cash\",\n            \"Society Bank Name/Bank code\": \"The bank code, e.g., HDFC\",\n            \"Cheque/Ref No\": \"The Cheque or Reference Number\",\n            \"Tower No\": \"The tower number, e.g., \x27B\x27\",\n            \"Flat No\": \"The flat number, e.g., \x27502\x27\",\n            \"Bill Head\": \"e.g., MAINTENANCE\",\n            \"Amount\": \"The transaction amount as a number\",\n            \"Transaction Date\": \"YYYY-MM-DD\",\n            \"Comments\": \"Any user comments\",\n            \"Meter No\": \"e.g., 6917\",\n            \"Cheque Issuer Bank\": \"The name of the cheque issuer bank\",\n            \"Cheque Date\": \"YYYY-MM-DD (if applicable)\"\n        \x7d" }),
    ("template2",
     { name := "Vendor Bill Upload"
       schema := "\x7b\n            \"Bill Number\": \"The vendor\x27s bill number\",\n            \"Bill Date\": \"YYYY-MM-DD\",\n            \"Vendor Code\": \"The vendor\x27s code\",\n            \"Due Date\": \"YYYY-MM-DD\",\n            \"Narration\": \"The description of the bill\",\n            \"CGST Amount\": \"CGST amount as a number (default 0)\",\n            \"SGST Amount\": \"SGST amount as a number (default 0)\",\n            \"IGST Amount\": \"IGST amount as a number (default 0)\",\n            \"TDS Amount\": \"TDS amount as a number (default 0)\",\n            \"expenses\": [\n                \x7b\n                    \"expense_code\": \"The code for the expense, e.g., \x27ELEC_REPAIR\x27\",\n                    \"expense_amount\": \"The amount for this specific expense as a number\"\n                \x7d\n            ]\n        \x7d" }),
    ("template3", template3_info) ]

/-- Schema resolution (src/app.py line 143):
`TEMPLATE_SCHEMAS.get(template_name, TEMPLATE_SCHEMAS["template3"])`.
A Python `dict.get` with a default never raises. -/
def schemas_get (template_name : String) : SchemaInfo :=
  match TEMPLATE_SCHEMAS.lookup template_name with
  | some info => info
  | none => template3_info

/-- A value stored in a worksheet cell, as openpyxl accepts it:
a string, a number, a boolean, or `None` (a blank cell). -/
inductive PyCell where
  | s (v : String)
  | i (v : Int)
  | b (v : Bool)
  | blank
deriving DecidableEq

/-- An openpyxl worksheet: its title and the cell assignments performed on
it, in order (coordinate key with the assigned value). -/
structure Worksheet where
  title : String
  cells : List (String × PyCell)
deriving DecidableEq

/-- Whether openpyxl accepts a string as a single-cell coordinate when
indexing a worksheet: one or more uppercase column letters followed by one
or more digits (`"A1"`, `"BC23"`, ...).  Any other key makes
`ws[key] = value` raise a `ValueError`. -/
def validCoord (key : String) : Bool :=
  let letters := key.data.takeWhile (fun c => 'A' ≤ c && c ≤ 'Z')
  let rest := key.data.dropWhile (fun c => 'A' ≤ c && c ≤ 'Z')
  letters ≠ [] && rest ≠ [] && rest.all Char.isDigit

/-- Assignment `ws[key] = value`: record the assignment when the key is a
valid cell coordinate, otherwise raise (openpyxl `ValueError`). -/
def wsSetCell (ws : Worksheet) (key : String) (v : PyCell) : Except String Worksheet :=
  if validCoord key then
    Except.ok { ws with cells := ws.cells ++ [(key, v)] }
  else
    Except.error (key ++ " is not a valid coordinate")

/-- The key used for header cells (src/app.py line 214).  The source writes
`ws[f"{{get_column_letter(col_idx)}}1"]`; in a Python f-string a doubled
brace is an escaped literal brace, so the expression is the constant text
`\x7bget_column_letter(col_idx)\x7d1` and `col_idx` is not interpolated.
The argument is kept to mirror the loop variable the f-string ignores. -/
def headerKey (_col_idx : Nat) : String :=
  "\x7bget_column_letter(col_idx)\x7d1"

/-- The key used for data cells (src/app.py line 226); as with `headerKey`,
`f"{{get_column_letter(col_idx)}}{{row_idx}}"` has only doubled braces, so
it is the constant text `\x7bget_column_letter(col_idx)\x7d\x7brow_idx\x7d`. -/
def cellKey (_col_idx _row_idx : Nat) : String :=
  "\x7bget_column_letter(col_idx)\x7d\x7brow_idx\x7d"

/-- Convert the value fetched by `row_data.get(header)` into a cell value
(src/app.py lines 219-226): a missing key gives Python `None` (a blank
cell), a list is serialized with `json.dumps`, and a dict would make
openpyxl raise. -/
def toCell : Option JsonValue → Except String PyCell
  | Option.none => Except.ok PyCell.blank
  | some JsonValue.null => Except.ok PyCell.blank
  | some (JsonValue.str v) => Except.ok (PyCell.s v)
  | some (JsonValue.num n) => Except.ok (PyCell.i n)
  | some (JsonValue.bool v) => Except.ok (PyCell.b v)
  | some (JsonValue.arr es) => Except.ok (PyCell.s (json_dumps (JsonValue.arr es)))
  | some (JsonValue.obj _) => Except.error "Cannot convert dict to Excel"

/-- The header-writing loop (src/app.py lines 213-214):
`for col_idx, header in enumerate(headers, 1)`. -/
def writeHeaderCells (ws : Worksheet) : Nat → List String → Except String Worksheet
  | _, [] => Except.ok ws
  | col_idx, h :: rest =>
    match wsSetCell ws (headerKey col_idx) (PyCell.s h) with
    | Except.error e => Except.error e
    | Except.ok ws2 => writeHeaderCells ws2 (col_idx + 1) rest

/-- The inner cell loop for one data row (src/app.py lines 218-226). -/
def writeRowCells (fs : List (String × JsonValue)) (row_idx : Nat) :
    Worksheet → Nat → List String → Except String Worksheet
  | ws, _, [] => Except.ok ws
  | ws, col_idx, h :: rest =>
    match toCell (fs.lookup h) with
    | Except.error e => Except.error e
    | Except.ok cv =>
      match wsSetCell ws (cellKey col_idx row_idx) cv with
      | Except.error e => Except.error e
      | Except.ok ws2 => writeRowCells fs row_idx ws2 (col_idx + 1) rest

/-- The data-row loop (src/app.py lines 217-226):
`for row_idx, row_data in enumerate(data, 2)`.  A row that is not a JSON
object makes `row_data.get` raise an `AttributeError`. -/
def writeDataRows (headers : List String) : Worksheet → Nat → List JsonValue → Except String Worksheet
  | ws, _, [] => Except.ok ws
  | ws, row_idx, row :: rest =>
    match row with
    | JsonValue.obj fs =>
      match writeRowCells fs row_idx ws 1 headers with
      | Except.error e => Except.error e
      | Except.ok ws2 => writeDataRows headers ws2 (row_idx + 1) rest
    | _ => Except.error "row object has no attribute get"

/-- The rendering stage (src/app.py lines 193-227): build the workbook,
title the sheet `"Data - " ++ template_name`, and either write the single
informational cell for an empty record list or write the header row taken
from the first record's keys followed by one row per record.  A record
that is not a JSON object makes `data[0].keys()` raise. -/
def renderSheet (template_name : String) (data : List JsonValue) : Except String Worksheet :=
  let ws : Worksheet := { title := "Data - " ++ template_name, cells := [] }
  match data with
  | [] => wsSetCell ws "A1" (PyCell.s "No data extracted.")
  | first :: _ =>
    match first with
    | JsonValue.obj fs =>
      let headers := fs.map Prod.fst
      match writeHeaderCells ws 1 headers with
      | Except.error e => Except.error e
      | Except.ok ws2 => writeDataRows headers ws2 2 data
    | _ => Except.error "first row object has no attribute keys"

/-- The parse-and-validate step (src/app.py lines 182-190): `json.loads`
the normalized text and require a JSON array (`isinstance(data, list)`),
raising `ValueError("Gemini did not return a list.")` otherwise.  The
string `"Expecting value"` stands for the `JSONDecodeError` message. -/
def validateRecords (txt : String) : Except String (List JsonValue) :=
  match json_loads txt with
  | Option.none => Except.error "Expecting value"
  | some (JsonValue.arr l) => Except.ok l
  | some _ => Except.error "Gemini did not return a list."

/-- The uploaded audio part of the multipart form: its filename and MIME
type (the bytes themselves play no role in the control flow). -/
structure AudioFile where
  filename : String
  mimetype : String
deriving DecidableEq

/-- Oracle outcomes for one request: the form fields found in the request
and the outcome of each external call, in program order.  `none` for a
form field models a missing multipart field (Flask raises a
`BadRequestKeyError`); `none` for `transcribeText`/`extractText` models the
Gemini call raising; `false` for a `Bool` field models the call raising
(`raise_for_status` on a non-2xx response, or the client erroring). -/
structure Env where
  form_template : Option String
  form_audio : Option AudioFile
  storeOk : Bool
  geminiUploadOk : Bool
  transcribeText : Option String
  deleteOk : Bool
  extractText : Option String
  logOk : Bool

/-- One external call attempted by the handler. -/
inductive ExtCall where
  | storeAudio
  | geminiUpload
  | transcribePrompt
  | deleteRemote
  | extractPrompt
  | logSink
deriving DecidableEq

/-- Every external call in the order the handler makes them when nothing
fails; each actual trace is a prefix of this list. -/
def fullCallOrder : List ExtCall :=
  [ExtCall.storeAudio, ExtCall.geminiUpload, ExtCall.transcribePrompt,
   ExtCall.deleteRemote, ExtCall.extractPrompt, ExtCall.logSink]

/-- The file sent on success (src/app.py lines 238-243): the workbook
content together with the `send_file` arguments. -/
structure SendFileResp where
  content : Worksheet
  download_name : String
  mimetype : String
  as_attachment : Bool
deriving DecidableEq

/-- An HTTP response body: either a JSON object of string fields
(`jsonify`) or a binary file (`send_file`). -/
inductive Body where
  | json (kvs : List (String × String))
  | file (f : SendFileResp)
deriving DecidableEq

/-- An HTTP response: status code and body. -/
structure Response where
  status : Nat
  body : Body
deriving DecidableEq

/-- The uniform failure response built by every error path of the handler:
`jsonify({"error": str(e)}), 500`. -/
def err500 (msg : String) : Response :=
  { status := 500, body := Body.json [("error", msg)] }

/-- The message of the `BadRequestKeyError` Flask raises when
`request.form[...]` or `request.files[...]` misses a key; `str(e)` of that
exception is this text. -/
def badRequestMsg : String :=
  "400 Bad Request: The browser (or proxy) sent a request that the server could not understand."

/-- Stand-in for `str(e)` of the exception raised by the blob-storage
upload (`r_audio.raise_for_status()`). -/
def storeErrMsg : String := "blob-storage upload failed"

/-- Stand-in for `str(e)` of the exception raised by `genai.upload_file`. -/
def geminiUploadErrMsg : String := "audio upload to Gemini failed"

/-- Stand-in for `str(e)` of the exception raised by the transcription
`generate_content` call. -/
def transcribeErrMsg : String := "transcription request failed"

/-- Stand-in for `str(e)` of the exception raised by `genai.delete_file`. -/
def deleteErrMsg : String := "remote file delete failed"

/-- Stand-in for `str(e)` of the exception raised by the extraction
`generate_content` call. -/
def extractErrMsg : String := "extraction request failed"

/-- Stand-in for `str(e)` of the exception raised by the log-sink post
(`r_log.raise_for_status()`). -/
def logErrMsg : String := "log-sink request failed"

/-- The MIME type passed to `send_file` (src/app.py line 241). -/
def xlsxMimetype : String :=
  "application/vnd.openxmlformats-officedocument.spreadsheetml.sheet"

/-- The `/api/process-audio` handler (src/app.py lines 87-248), as a
function from the request environment to the response paired with the
trace of external calls attempted, in order.  Exceptions are modelled by
returning `err500 (str e)` from the point where the Python exception
would propagate to the outer `except Exception` handler. -/
def process_audio (env : Env) : Response × List ExtCall :=
  match env.form_template with
  | Option.none => (err500 badRequestMsg, [])
  | some template_name =>
    match env.form_audio with
    | Option.none => (err500 badRequestMsg, [])
    | some _audio_file =>
      -- 1. store audio in Google Drive (lines 103-104)
      if env.storeOk then
        -- 2. upload to Gemini (lines 117-121), then transcribe (line 126)
        if env.geminiUploadOk then
          match env.transcribeText with
          | Option.none =>
            -- generate_content raised: delete_file (line 129) never runs
            (err500 transcribeErrMsg,
             [ExtCall.storeAudio, ExtCall.geminiUpload, ExtCall.transcribePrompt])
          | some transcription_text =>
            -- clean up the remote blob (line 129)
            if env.deleteOk then
              -- empty transcription check (lines 131-133)
              if transcription_text = "" then
                (err500 "Transcription failed: The AI returned no text.",
                 [ExtCall.storeAudio, ExtCall.geminiUpload, ExtCall.transcribePrompt,
                  ExtCall.deleteRemote])
              else
                -- 3. analyze with Gemini (lines 143-160)
                let schema_info := schemas_get template_name
                match env.extractText with
                | Option.none =>
                  (err500 extractErrMsg,
                   [ExtCall.storeAudio, ExtCall.geminiUpload, ExtCall.transcribePrompt,
                    ExtCall.deleteRemote, ExtCall.extractPrompt])
                | some rawText =>
                  let extracted_json_text := pyNormalize rawText
                  -- 4. log to Google Sheet (lines 168-175): runs BEFORE parsing
                  let _log_template := template_name ++ " (" ++ schema_info.name ++ ")"
                  if env.logOk then
                    -- 5. parse and validate (lines 182-190), then render (193-227)
                    match validateRecords extracted_json_text with
                    | Except.error m =>
                      (err500 ("Could not understand AI output: " ++ m),
                       fullCallOrder)
                    | Except.ok data =>
                      match renderSheet template_name data with
                      | Except.error m => (err500 m, fullCallOrder)
                      | Except.ok ws =>
                        -- 6. send the Excel file (lines 238-243)
                        ({ status := 200,
                           body := Body.file
                             { content := ws
                               download_name := "billing_report.xlsx"
                               mimetype := xlsxMimetype
                               as_attachment := true } },
                         fullCallOrder)
                  else
                    (err500 logErrMsg, fullCallOrder)
            else
              (err500 deleteErrMsg,
               [ExtCall.storeAudio, ExtCall.geminiUpload, ExtCall.transcribePrompt,
                ExtCall.deleteRemote])
        else
          (err500 geminiUploadErrMsg, [ExtCall.storeAudio, ExtCall.geminiUpload])
      else
        (err500 storeErrMsg, [ExtCall.storeAudio])

/-- A request in which every external call succeeds: template `template3`,
transcript `"rent five hundred"`, and the model extraction response
`[{"description":"rent","amount":500}]` (braces written `\x7b`/`\x7d`).
This is the end-to-end scenario of the specification. -/
def envHappyT3 : Env :=
  { form_template := some "template3"
    form_audio := some { filename := "voice.webm", mimetype := "audio/webm" }
    storeOk := true
    geminiUploadOk := true
    transcribeText := some "rent five hundred"
    deleteOk := true
    extractText := some "[\x7b\"description\":\"rent\",\"amount\":500\x7d]"
    logOk := true }

/-- A request in which every external call succeeds but the extraction
model answers text that is not JSON. -/
def envBadJson : Env :=
  { envHappyT3 with form_template := some "template1", extractText := some "not json" }

/-- A request in which every external call succeeds but the extraction
model answers a JSON object instead of an array. -/
def envObjJson : Env :=
  { envHappyT3 with extractText := some "\x7b\"a\": 1\x7d" }

/-- A request in which every external call succeeds and the extraction
model answers the empty array `[]`. -/
def envEmptyList : Env :=
  { envHappyT3 with extractText := some "[]" }

/-- A request whose transcription prompt call raises. -/
def envPromptRaises : Env :=
  { envHappyT3 with transcribeText := Option.none }

/-- A request whose blob-storage upload fails. -/
def envStoreFails : Env :=
  { envHappyT3 with storeOk := false }

/-- A request whose multipart form has no `template` field. -/
def envNoTemplate : Env :=
  { envHappyT3 with form_template := Option.none }

/-! ### Lemmas about the Python string primitives -/

lemma isPrefixOf_append_self (l r : List Char) : l.isPrefixOf (l ++ r) = true := by
  induction l with
  | nil => simp [List.isPrefixOf]
  | cons c cs ih => simp [List.isPrefixOf, ih]

lemma replaceAux_fuel_irrel (old new : List Char) :
    ∀ (fuel fuel' : Nat) (l : List Char), l.length ≤ fuel → l.length ≤ fuel' →
      replaceAux old new fuel l = replaceAux old new fuel' l := by
  intro fuel
  induction fuel with
  | zero =>
    intro fuel' l h _
    have hl : l = [] := List.eq_nil_of_length_eq_zero (Nat.le_zero.mp h)
    subst hl
    cases fuel' <;> rfl
  | succ f ih =>
    intro fuel' l h h'
    cases l with
    | nil => cases fuel' <;> rfl
    | cons c cs =>
      cases fuel' with
      | zero => simp at h'
      | succ f' =>
        simp only [replaceAux]
        by_cases hc : old ≠ [] ∧ old.isPrefixOf (c :: cs)
        · rw [if_pos hc, if_pos hc]
          refine congrArg (new ++ ·) (ih f' _ ?_ ?_) <;>
            · rw [List.length_drop]
              simp only [List.length_cons] at h h'
              omega
        · rw [if_neg hc, if_neg hc]
          refine congrArg (c :: ·) (ih f' cs ?_ ?_) <;>
            · simp only [List.length_cons] at h h'
              omega

lemma replaceAux_clean (c0 : Char) (tl new : List Char) :
    ∀ (fuel : Nat) (l : List Char), (∀ c ∈ l, c ≠ c0) →
      replaceAux (c0 :: tl) new fuel l = l := by
  intro fuel
  induction fuel with
  | zero => intro l _; rfl
  | succ f ih =>
    intro l h
    cases l with
    | nil => rfl
    | cons c cs =>
      have hcne : c ≠ c0 := h c (List.mem_cons_self c cs)
      simp only [replaceAux]
      rw [if_neg]
      · exact congrArg (c :: ·) (ih cs (fun x hx => h x (List.mem_cons_of_mem c hx)))
      · rintro ⟨-, hpre⟩
        simp only [List.isPrefixOf, Bool.and_eq_true, beq_iff_eq] at hpre
        exact hcne hpre.1.symm

lemma replaceAux_append_clean (c0 : Char) (tl new : List Char) :
    ∀ (l m : List Char) (fuel : Nat), (∀ c ∈ l, c ≠ c0) → (l ++ m).length ≤ fuel →
      replaceAux (c0 :: tl) new fuel (l ++ m) =
        l ++ replaceAux (c0 :: tl) new m.length m := by
  intro l
  induction l with
  | nil =>
    intro m fuel _ hf
    simpa using replaceAux_fuel_irrel (c0 :: tl) new fuel m.length m (by simpa using hf)
      (Nat.le_refl _)
  | cons c cs ih =>
    intro m fuel h hf
    cases fuel with
    | zero => simp at hf
    | succ f =>
      have hcne : c ≠ c0 := h c (List.mem_cons_self c cs)
      simp only [List.cons_append, replaceAux]
      rw [if_neg]
      · refine congrArg (c :: ·) (ih m f (fun x hx => h x (List.mem_cons_of_mem c hx)) ?_)
        simp only [List.cons_append, List.length_cons] at hf
        omega
      · rintro ⟨-, hpre⟩
        simp only [List.isPrefixOf, Bool.and_eq_true, beq_iff_eq] at hpre
        exact hcne hpre.1.symm

lemma replaceAux_head_occ (c0 : Char) (tl new rest : List Char) (fuel : Nat)
    (hf : (c0 :: (tl ++ rest)).length ≤ fuel) :
    replaceAux (c0 :: tl) new fuel (c0 :: (tl ++ rest)) =
      new ++ replaceAux (c0 :: tl) new rest.length rest := by
  cases fuel with
  | zero => simp at hf
  | succ f =>
    simp only [replaceAux]
    rw [if_pos ⟨List.cons_ne_nil c0 tl, isPrefixOf_append_self (c0 :: tl) rest⟩]
    refine congrArg (new ++ ·) ?_
    rw [show (c0 :: tl).length - 1 = tl.length from by simp]
    rw [List.drop_left tl rest]
    refine replaceAux_fuel_irrel _ _ f rest.length rest ?_ (Nat.le_refl _)
    simp only [List.length_cons, List.length_append] at hf
    omega

lemma pyStrip_data_subset (s : String) : ∀ c ∈ (pyStrip s).data, c ∈ s.data := by
  intro c hc
  have hc' : c ∈ ((s.data.dropWhile isPySpace).reverse.dropWhile isPySpace).reverse := hc
  rw [List.mem_reverse] at hc'
  have hc2 := (List.dropWhile_sublist isPySpace).subset hc'
  rw [List.mem_reverse] at hc2
  exact (List.dropWhile_sublist isPySpace).subset hc2

lemma pyStrip_eq_self_of_ends (a b : Char) (mid : List Char)
    (ha : isPySpace a = false) (hb : isPySpace b = false) :
    pyStrip ⟨a :: (mid ++ [b])⟩ = ⟨a :: (mid ++ [b])⟩ := by
  apply String.ext
  show ((((a :: (mid ++ [b])).dropWhile isPySpace).reverse.dropWhile isPySpace).reverse) =
    a :: (mid ++ [b])
  rw [List.dropWhile_cons, ha]
  simp only [if_false, Bool.false_eq_true]
  have hrev : (a :: (mid ++ [b])).reverse = b :: (mid.reverse ++ [a]) := by
    simp
  rw [hrev, List.dropWhile_cons, hb]
  simp

lemma fenced_eq_mk (s : String) :
    ("```json" ++ s ++ "```" : String) = ⟨'`' :: (("``json".data ++ s.data ++ ['`', '`']) ++ ['`'])⟩ := by
  apply String.ext
  rw [String.data_append, String.data_append]
  rw [show "```json".data = '`' :: "``json".data from rfl,
      show "```".data = ['`', '`', '`'] from rfl]
  simp

lemma pyStrip_fenced (s : String) :
    pyStrip ("```json" ++ s ++ "```") = "```json" ++ s ++ "```" := by
  rw [fenced_eq_mk]
  exact pyStrip_eq_self_of_ends '`' '`' _ rfl rfl

/-! ### Claim theorems -/

/-- Claim C5, counterexample.  The claim states that normalization removes
only leading/trailing code-fence markers and leaves fence sequences
strictly inside the text unchanged.  The input `"a```b"` has no leading or
trailing fence marker, so under the claim it would reach the parser
unchanged; the code removes the interior fence and hands `"ab"` to the
parser. -/
theorem C5_counterexample :
    pyNormalize "a```b" = "ab" ∧ ("a```b" : String) ≠ "ab" :=
  ⟨rfl, by decide⟩

/-- Claim C5, amended: the normalization step strips surrounding whitespace
and then removes every occurrence of the fence markers ` ```json ` and
` ``` ` anywhere in the text, interior occurrences included.  Consequently,
a backtick-free response is passed through unchanged apart from whitespace
stripping, and a response wrapped in ` ```json `/` ``` ` fences is reduced
to exactly the fenced content. -/
theorem C5_fence_removal_global (s : String) (h : ∀ c ∈ s.data, c ≠ '`') :
    pyNormalize s = pyStrip s ∧ pyNormalize ("```json" ++ s ++ "```") = s := by
  have hmem : ∀ c ∈ (pyStrip s).data, c ≠ '`' :=
    fun c hc => h c (pyStrip_data_subset s c hc)
  constructor
  · have inner : pyReplace (pyStrip s) "```json" "" = pyStrip s :=
      String.ext (replaceAux_clean '`' "``json".data "".data _ _ hmem)
    have outer : pyReplace (pyStrip s) "```" "" = pyStrip s :=
      String.ext (replaceAux_clean '`' "``".data "".data _ _ hmem)
    unfold pyNormalize
    rw [inner, outer]
  · have h1 : pyReplace ("```json" ++ s ++ "```") "```json" "" = ⟨s.data ++ "```".data⟩ := by
      apply String.ext
      show replaceAux "```json".data "".data ("```json" ++ s ++ "```").data.length
        ("```json" ++ s ++ "```").data = s.data ++ "```".data
      have hd : ("```json" ++ s ++ "```").data =
          '`' :: ("``json".data ++ (s.data ++ "```".data)) := by
        rw [String.data_append, String.data_append]
        rw [show "```json".data = '`' :: "``json".data from rfl]
        simp
      rw [hd]
      rw [replaceAux_head_occ '`' "``json".data "".data (s.data ++ "```".data) _ (Nat.le_refl _)]
      rw [replaceAux_append_clean '`' "``json".data "".data s.data "```".data _ h (Nat.le_refl _)]
      rw [show replaceAux ('`' :: "``json".data) "".data "```".data.length "```".data =
        "```".data from rfl]
      simp
    have h2 : pyReplace ⟨s.data ++ "```".data⟩ "```" "" = s := by
      apply String.ext
      show replaceAux "```".data "".data (s.data ++ "```".data).length
        (s.data ++ "```".data) = s.data
      rw [replaceAux_append_clean '`' "``".data "".data s.data "```".data _ h (Nat.le_refl _)]
      rw [show replaceAux ('`' :: "``".data) "".data "```".data.length "```".data =
        ([] : List Char) from rfl]
      simp
    unfold pyNormalize
    rw [pyStrip_fenced, h1, h2]

/-- Witness for `C5_fence_removal_global` at the backtick-free response
`"[1, 2]"`: wrapped in ` ```json `/` ``` ` fences it normalizes to exactly
`"[1, 2]"`. -/
theorem C5_witness :
    (∀ c ∈ "[1, 2]".data, c ≠ '`') ∧
      pyNormalize ("```json" ++ "[1, 2]" ++ "```") = "[1, 2]" :=
  ⟨by decide, (C5_fence_removal_global "[1, 2]" (by decide)).2⟩

/-- Claim C1 (code bug).  The claim says the header row of the produced
sheet is the first record's key list and that rendering never raises for
non-empty record lists.  In the source the cell keys are written with
doubled braces inside an f-string (`ws[f"{{get_column_letter(col_idx)}}1"]`,
src/app.py line 214), which Python treats as escaped literal braces, so the
worksheet is indexed with the constant text
`\x7bget_column_letter(col_idx)\x7d1` — an invalid coordinate — and
rendering raises on the very first header cell for every record list whose
first record has at least one key. -/
theorem C1_render_nonempty_raises :
    renderSheet "template3"
      [JsonValue.obj [("description", JsonValue.str "rent"), ("amount", JsonValue.num 500)]] =
      Except.error "\x7bget_column_letter(col_idx)\x7d1 is not a valid coordinate"
    ∧ ∀ (tn : String) (kv : String × JsonValue) (kvs : List (String × JsonValue))
        (rest : List JsonValue),
        renderSheet tn (JsonValue.obj (kv :: kvs) :: rest) =
          Except.error "\x7bget_column_letter(col_idx)\x7d1 is not a valid coordinate" := by
  refine ⟨rfl, ?_⟩
  intro tn kv kvs rest
  unfold renderSheet
  simp only [List.map_cons]
  rw [show writeHeaderCells { title := "Data - " ++ tn, cells := [] } 1
      (kv.1 :: kvs.map Prod.fst) =
    Except.error "\x7bget_column_letter(col_idx)\x7d1 is not a valid coordinate" from ?_]
  · unfold writeHeaderCells wsSetCell
    rw [show validCoord (headerKey 1) = false from rfl]
    rfl

/-- Claim C2 (code bug).  In the end-to-end scenario — template id
`template3`, every external call succeeding, extraction response
`[{"description":"rent","amount":500}]` — the claim expects a rendered
sheet with header row `[description, amount]` and data row `[rent, 500]`.
Because of the escaped f-string braces in the cell keys (see
`C1_render_nonempty_raises`) the render stage instead raises, and the
request answers HTTP 500 with the invalid-coordinate message. -/
theorem C2_happy_path_returns_500 :
    process_audio envHappyT3 =
      (err500 "\x7bget_column_letter(col_idx)\x7d1 is not a valid coordinate",
       fullCallOrder) := rfl

/-- Claim C8: schema resolution is total — it returns the matching schema
for a registered template id and the `template3` default schema for any
other id, and (being a total Lean function) never raises. -/
theorem C8_schema_resolution_total (tid : String) :
    (∀ info, TEMPLATE_SCHEMAS.lookup tid = some info → schemas_get tid = info)
    ∧ (TEMPLATE_SCHEMAS.lookup tid = Option.none → schemas_get tid = template3_info) := by
  constructor
  · intro info h
    unfold schemas_get
    rw [h]
  · intro h
    unfold schemas_get
    rw [h]

/-- Witness for `C8_schema_resolution_total`: the unregistered id
`"bogus"` resolves to the default `template3` schema, and the registered id
`"template1"` resolves to its own entry. -/
theorem C8_witness :
    schemas_get "bogus" = template3_info
    ∧ ∃ info, TEMPLATE_SCHEMAS.lookup "template1" = some info
        ∧ schemas_get "template1" = info :=
  ⟨(C8_schema_resolution_total "bogus").2 rfl,
   ⟨_, rfl, (C8_schema_resolution_total "template1").1 _ rfl⟩⟩

/-- Claim C10: a request whose multipart form is missing the `template`
field or the `audio` field is answered with the uniform HTTP 500 JSON
error envelope (Flask raises a `BadRequestKeyError` at
`request.form[...]`/`request.files[...]`, and the outer
`except Exception` converts it), with no external call attempted. -/
theorem C10_missing_form_field_uniform_error (env : Env)
    (h : env.form_template = Option.none ∨ env.form_audio = Option.none) :
    (∃ m, (process_audio env).fst = { status := 500, body := Body.json [("error", m)] })
    ∧ (process_audio env).snd = [] := by
  unfold process_audio
  rcases h with h | h
  · rw [h]
    exact ⟨⟨badRequestMsg, rfl⟩, rfl⟩
  · cases ht : env.form_template with
    | none => exact ⟨⟨badRequestMsg, rfl⟩, rfl⟩
    | some tn =>
      rw [h]
      exact ⟨⟨badRequestMsg, rfl⟩, rfl⟩

/-- Witness for `C10_missing_form_field_uniform_error` at a request with
no `template` form field. -/
theorem C10_witness :
    (∃ m, (process_audio envNoTemplate).fst =
      { status := 500, body := Body.json [("error", m)] })
    ∧ (process_audio envNoTemplate).snd = [] :=
  C10_missing_form_field_uniform_error envNoTemplate (Or.inl rfl)

/-- Claim C9: when every external call succeeds and the extraction output
is the empty JSON array, the rendered sheet carries exactly one populated
cell, `A1 = "No data extracted."`, and the request completes with the
rendered file (an HTTP 200 attachment) rather than an error. -/
theorem C9_empty_records_single_cell (env : Env) (tn : String) (af : AudioFile) (tx ex : String)
    (h1 : env.form_template = some tn) (h2 : env.form_audio = some af)
    (h3 : env.storeOk = true) (h4 : env.geminiUploadOk = true)
    (h5 : env.transcribeText = some tx) (h6 : tx ≠ "")
    (h7 : env.deleteOk = true) (h8 : env.extractText = some ex)
    (h9 : env.logOk = true)
    (h10 : json_loads (pyNormalize ex) = some (JsonValue.arr [])) :
    (process_audio env).fst =
      { status := 200
        body := Body.file
          { content := { title := "Data - " ++ tn
                         cells := [("A1", PyCell.s "No data extracted.")] }
            download_name := "billing_report.xlsx"
            mimetype := xlsxMimetype
            as_attachment := true } } := by
  simp [process_audio, h1, h2, h3, h4, h5, h6, h7, h8, h9, validateRecords, h10,
    renderSheet, wsSetCell, show validCoord "A1" = true from rfl]

/-- Witness for `C9_empty_records_single_cell` at the all-success request
whose extraction response is `"[]"`. -/
theorem C9_witness :
    (process_audio envEmptyList).fst =
      { status := 200
        body := Body.file
          { content := { title := "Data - " ++ "template3"
                         cells := [("A1", PyCell.s "No data extracted.")] }
            download_name := "billing_report.xlsx"
            mimetype := xlsxMimetype
            as_attachment := true } } :=
  C9_empty_records_single_cell envEmptyList "template3"
    { filename := "voice.webm", mimetype := "audio/webm" } "rent five hundred" "[]"
    rfl rfl rfl rfl rfl (by decide) rfl rfl rfl rfl

/-- Claim C4, counterexample.  The claim states the remote delete call runs
even when the transcription prompt call raises.  In the source
`genai.delete_file` (line 129) follows `generate_content` (line 126) with
no `try/finally`, so when the prompt call raises, the handler stops with
the transcription calls attempted and no remote delete in the trace. -/
theorem C4_counterexample :
    (process_audio envPromptRaises).snd =
      [ExtCall.storeAudio, ExtCall.geminiUpload, ExtCall.transcribePrompt]
    ∧ ExtCall.deleteRemote ∉ (process_audio envPromptRaises).snd
    ∧ (process_audio envPromptRaises).fst = err500 transcribeErrMsg :=
  ⟨rfl, by decide, rfl⟩

/-- Claim C4, amended: after a successful upload, the remote delete call
runs exactly when the transcription prompt call returns (with any text,
empty included, and even if a later stage fails); when the prompt call
raises, the delete is skipped and the exception propagates to the outer
handler. -/
theorem C4_delete_iff_prompt_returns (env : Env) (tn : String) (af : AudioFile)
    (h1 : env.form_template = some tn) (h2 : env.form_audio = some af)
    (h3 : env.storeOk = true) (h4 : env.geminiUploadOk = true) :
    (∀ t, env.transcribeText = some t → ExtCall.deleteRemote ∈ (process_audio env).snd)
    ∧ (env.transcribeText = Option.none →
        ExtCall.deleteRemote ∉ (process_audio env).snd) := by
  constructor
  · intro t ht
    simp only [process_audio, h1, h2, h3, h4, ht, if_true]
    by_cases hd : env.deleteOk
    · by_cases hte : t = ""
      · simp [hd, hte, fullCallOrder]
      · simp only [hd, hte, if_true, if_false, ite_true, ite_false]
        cases hx : env.extractText with
        | none => simp
        | some rawText =>
          by_cases hl : env.logOk
          · simp only [hl, ite_true]
            cases hv : validateRecords (pyNormalize rawText) with
            | error m => simp [hv, fullCallOrder]
            | ok data =>
              cases hr : renderSheet tn data with
              | error m => simp [hv, hr, fullCallOrder]
              | ok ws => simp [hv, hr, fullCallOrder]
          · simp [hl, fullCallOrder]
    · simp [hd]
  · intro ht
    simp [process_audio, h1, h2, h3, h4, ht]

/-- Witness for `C4_delete_iff_prompt_returns`: in the all-success request
the delete call is in the trace. -/
theorem C4_witness :
    ExtCall.deleteRemote ∈ (process_audio envHappyT3).snd :=
  (C4_delete_iff_prompt_returns envHappyT3 "template3"
    { filename := "voice.webm", mimetype := "audio/webm" } rfl rfl rfl rfl).1
    "rent five hundred" rfl

/-- Claim C6: when the normalized extraction output fails to parse as JSON,
or parses to a top-level value that is not an array (object, scalar, ...),
the request terminates with the JSON-array-shape error
(`"Could not understand AI output: ..."`) at HTTP 500 — never a coerced
value or a partial result. -/
theorem C6_non_array_shape_is_terminal (env : Env) (tn : String) (af : AudioFile) (tx ex : String)
    (h1 : env.form_template = some tn) (h2 : env.form_audio = some af)
    (h3 : env.storeOk = true) (h4 : env.geminiUploadOk = true)
    (h5 : env.transcribeText = some tx) (h6 : tx ≠ "")
    (h7 : env.deleteOk = true) (h8 : env.extractText = some ex)
    (h9 : env.logOk = true)
    (h10 : json_loads (pyNormalize ex) = Option.none
      ∨ ∃ v, json_loads (pyNormalize ex) = some v ∧ ∀ es, v ≠ JsonValue.arr es) :
    ∃ m, (process_audio env).fst =
      { status := 500
        body := Body.json [("error", "Could not understand AI output: " ++ m)] } := by
  have hval : ∃ m, validateRecords (pyNormalize ex) = Except.error m := by
    rcases h10 with h | ⟨v, hv, hne⟩
    · exact ⟨"Expecting value", by simp [validateRecords, h]⟩
    · cases v with
      | arr es => exact absurd rfl (hne es)
      | null => exact ⟨"Gemini did not return a list.", by simp [validateRecords, hv]⟩
      | bool b => exact ⟨"Gemini did not return a list.", by simp [validateRecords, hv]⟩
      | num n => exact ⟨"Gemini did not return a list.", by simp [validateRecords, hv]⟩
      | str s => exact ⟨"Gemini did not return a list.", by simp [validateRecords, hv]⟩
      | obj fs => exact ⟨"Gemini did not return a list.", by simp [validateRecords, hv]⟩
  obtain ⟨m, hm⟩ := hval
  refine ⟨m, ?_⟩
  simp [process_audio, h1, h2, h3, h4, h5, h6, h7, h8, h9, hm, err500]

/-- Witness for `C6_non_array_shape_is_terminal` at the all-success request
whose extraction response is the JSON object `{"a": 1}`. -/
theorem C6_witness :
    ∃ m, (process_audio envObjJson).fst =
      { status := 500
        body := Body.json [("error", "Could not understand AI output: " ++ m)] } :=
  C6_non_array_shape_is_terminal envObjJson "template3"
    { filename := "voice.webm", mimetype := "audio/webm" } "rent five hundred"
    "\x7b\"a\": 1\x7d" rfl rfl rfl rfl rfl (by decide) rfl rfl rfl
    (Or.inr ⟨JsonValue.obj [("a", JsonValue.num 1)], rfl,
      fun es h => JsonValue.noConfusion h⟩)

/-- Claim C3, counterexample.  The claim states the stage order is
`INGEST → TRANSCRIBE → EXTRACT → VALIDATE → LOG → ...` and that a record
list failing array validation is never shipped to the log sink.  In the
source the log-sink post (line 174) precedes the parse/validation step
(line 183): in a run whose extraction output `"not json"` fails
validation, the log call is nonetheless in the trace. -/
theorem C3_counterexample :
    validateRecords (pyNormalize "not json") = Except.error "Expecting value"
    ∧ ExtCall.logSink ∈ (process_audio envBadJson).snd
    ∧ (process_audio envBadJson).fst =
        err500 "Could not understand AI output: Expecting value" :=
  ⟨rfl, by decide, rfl⟩

/-- Claim C3, amended: the external calls are attempted in the fixed order
ingest, transcription upload/prompt/delete, extraction, log — i.e. the
stage order is `INGEST → TRANSCRIBE → EXTRACT → LOG → VALIDATE → RENDER →
RESPOND` — every trace being a prefix of that order (any failure
short-circuits the remaining calls); a blob-storage upload failure prevents
the transcription, extraction and logging calls and yields the uniform
error; and a record list that fails array validation has already been
shipped to the log sink, because logging precedes validation. -/
theorem C3_call_order (env : Env) :
    (∃ n, (process_audio env).snd = fullCallOrder.take n)
    ∧ (env.storeOk = false →
        ExtCall.geminiUpload ∉ (process_audio env).snd
        ∧ ExtCall.transcribePrompt ∉ (process_audio env).snd
        ∧ ExtCall.extractPrompt ∉ (process_audio env).snd
        ∧ ExtCall.logSink ∉ (process_audio env).snd
        ∧ ∃ m, (process_audio env).fst = { status := 500, body := Body.json [("error", m)] })
    ∧ (∀ tn af tx ex, env.form_template = some tn → env.form_audio = some af →
        env.storeOk = true → env.geminiUploadOk = true → env.transcribeText = some tx →
        tx ≠ "" → env.deleteOk = true → env.extractText = some ex → env.logOk = true →
        ∀ m, validateRecords (pyNormalize ex) = Except.error m →
          ExtCall.logSink ∈ (process_audio env).snd
          ∧ (process_audio env).fst =
              { status := 500
                body := Body.json [("error", "Could not understand AI output: " ++ m)] }) := by
  refine ⟨?_, ?_, ?_⟩
  · obtain ⟨ft, fa, so, go, tt, dk, ext, lo⟩ := env
    cases ft with
    | none => exact ⟨0, rfl⟩
    | some tn =>
    cases fa with
    | none => exact ⟨0, rfl⟩
    | some af =>
    cases so with
    | false => exact ⟨1, rfl⟩
    | true =>
    cases go with
    | false => exact ⟨2, rfl⟩
    | true =>
    cases tt with
    | none => exact ⟨3, rfl⟩
    | some tx =>
    cases dk with
    | false => exact ⟨4, rfl⟩
    | true =>
    by_cases htx : tx = ""
    · exact ⟨4, by simp [process_audio, htx, fullCallOrder]⟩
    · cases ext with
      | none => exact ⟨5, by simp [process_audio, htx, fullCallOrder]⟩
      | some raw =>
        cases lo with
        | false => exact ⟨6, by simp [process_audio, htx, fullCallOrder]⟩
        | true =>
          cases hv : validateRecords (pyNormalize raw) with
          | error m => exact ⟨6, by simp [process_audio, htx, hv, fullCallOrder]⟩
          | ok data =>
            cases hr : renderSheet tn data with
            | error m => exact ⟨6, by simp [process_audio, htx, hv, hr, fullCallOrder]⟩
            | ok ws => exact ⟨6, by simp [process_audio, htx, hv, hr, fullCallOrder]⟩
  · intro h
    cases h1 : env.form_template with
    | none =>
      refine ⟨by simp [process_audio, h1], by simp [process_audio, h1],
        by simp [process_audio, h1], by simp [process_audio, h1],
        ⟨badRequestMsg, by simp [process_audio, h1, err500]⟩⟩
    | some tn =>
      cases h2 : env.form_audio with
      | none =>
        refine ⟨by simp [process_audio, h1, h2], by simp [process_audio, h1, h2],
          by simp [process_audio, h1, h2], by simp [process_audio, h1, h2],
          ⟨badRequestMsg, by simp [process_audio, h1, h2, err500]⟩⟩
      | some af =>
        refine ⟨by simp [process_audio, h1, h2, h], by simp [process_audio, h1, h2, h],
          by simp [process_audio, h1, h2, h], by simp [process_audio, h1, h2, h],
          ⟨storeErrMsg, by simp [process_audio, h1, h2, h, err500]⟩⟩
  · intro tn af tx ex h1 h2 h3 h4 h5 h6 h7 h8 h9 m hm
    constructor
    · simp [process_audio, h1, h2, h3, h4, h5, h6, h7, h8, h9, hm, fullCallOrder]
    · simp [process_audio, h1, h2, h3, h4, h5, h6, h7, h8, h9, hm, err500]

/-- Witness for `C3_call_order`: a store failure attempts no transcription
call, and the run with unparseable extraction output has the log call in
its trace. -/
theorem C3_witness :
    ExtCall.transcribePrompt ∉ (process_audio envStoreFails).snd
    ∧ ExtCall.logSink ∈ (process_audio envBadJson).snd :=
  ⟨((C3_call_order envStoreFails).2.1 rfl).2.1,
   ((C3_call_order envBadJson).2.2 "template1"
      { filename := "voice.webm", mimetype := "audio/webm" } "rent five hundred" "not json"
      rfl rfl rfl rfl rfl (by decide) rfl rfl rfl "Expecting value" rfl).1⟩

/-- Claim C7: every response of the handler is either the uniform HTTP 500
JSON error envelope `{"error": msg}` or the HTTP 200 success response
carrying the rendered workbook as an attachment named
`billing_report.xlsx` with the spreadsheet content type; no other status
code or body shape occurs. -/
theorem C7_uniform_envelope (env : Env) :
    (∃ m, (process_audio env).fst = { status := 500, body := Body.json [("error", m)] })
    ∨ (∃ ws, (process_audio env).fst =
        { status := 200
          body := Body.file
            { content := ws
              download_name := "billing_report.xlsx"
              mimetype := xlsxMimetype
              as_attachment := true } }) := by
  obtain ⟨ft, fa, so, go, tt, dk, ext, lo⟩ := env
  cases ft with
  | none => exact Or.inl ⟨badRequestMsg, rfl⟩
  | some tn =>
  cases fa with
  | none => exact Or.inl ⟨badRequestMsg, rfl⟩
  | some af =>
  cases so with
  | false => exact Or.inl ⟨storeErrMsg, rfl⟩
  | true =>
  cases go with
  | false => exact Or.inl ⟨geminiUploadErrMsg, rfl⟩
  | true =>
  cases tt with
  | none => exact Or.inl ⟨transcribeErrMsg, rfl⟩
  | some tx =>
  cases dk with
  | false => exact Or.inl ⟨deleteErrMsg, rfl⟩
  | true =>
  by_cases htx : tx = ""
  · subst htx
    exact Or.inl ⟨"Transcription failed: The AI returned no text.", rfl⟩
  · cases ext with
    | none => exact Or.inl ⟨extractErrMsg, by simp [process_audio, htx, err500]⟩
    | some raw =>
      cases lo with
      | false => exact Or.inl ⟨logErrMsg, by simp [process_audio, htx, err500]⟩
      | true =>
        cases hv : validateRecords (pyNormalize raw) with
        | error m =>
          exact Or.inl ⟨"Could not understand AI output: " ++ m,
            by simp [process_audio, htx, hv, err500]⟩
        | ok data =>
          cases hr : renderSheet tn data with
          | error m => exact Or.inl ⟨m, by simp [process_audio, htx, hv, hr, err500]⟩
          | ok ws => exact Or.inr ⟨ws, by simp [process_audio, htx, hv, hr]⟩

end VoiceBackend

